import Mathlib

/-!
A shallow embedding of the cooperative thread scheduler and POSIX
synchronization shims of the interpreter core (sources:
`src/thread.rs`, `src/shims/sync.rs`, `src/shims/thread.rs`).

Conventions of the embedding:
* Machine integers are `Nat`/`Int`; `Instant` and `SystemTime` values are
  nanosecond counts (`Nat`) on the monotonic clock resp. since the Unix epoch.
* Guest memory accesses performed by the shims are represented by explicit
  guest-object records (`MutexObj`, `RwLockObj`, `CondObj`, `TimespecObj`)
  holding the bytes the shims read and write at their fixed offsets.
* Fallible code returns `Except InterpError`; `throw_ub_format!`,
  `throw_unsup_format!`, `throw_machine_stop!(TerminationInfo::Deadlock)` and
  Rust panics (failed `assert!`/`unwrap`) map to the four error constructors.
* The synchronization-state module (`crate::sync`, the `SynchronizationState`
  with the `mutex_*`/`rwlock_*`/`condvar_*` primitive operations) is used by
  the given sources but its own source file is not among them; those
  operations are modelled from the specification, see the doc comments below.
* Boxed one-shot timeout callbacks are defunctionalized: the two closures the
  shims create (`pthread_cond_timedwait`, `nanosleep`) become the constructors
  of `TimeoutCallback`, interpreted by `run_callback`.
-/

deriving instance DecidableEq for Except

namespace Miri

/-- The state of a thread (`ThreadState` in `src/thread.rs`). -/
inductive ThreadState where
  | enabled
  | blockedOnJoin (target : Nat)
  | blockedOnSync
  | terminated
deriving DecidableEq, Repr

/-- The join status of a thread (`ThreadJoinStatus` in `src/thread.rs`). -/
inductive ThreadJoinStatus where
  | joinable
  | detached
  | joined
deriving DecidableEq, Repr

/-- A thread (`Thread` in `src/thread.rs`).  Call frames are opaque to the
scheduler core, so the virtual call stack is modelled as a list of opaque
frames; only its length (in particular emptiness) is ever inspected. -/
structure Thread where
  state : ThreadState
  thread_name : Option (List Nat)
  stack : List Unit
  join_status : ThreadJoinStatus
deriving DecidableEq, Repr

/-- `Thread::default()`: enabled, unnamed, empty stack, joinable. -/
def Thread.default : Thread :=
  { state := .enabled, thread_name := none, stack := [], join_status := .joinable }

/-- Tagged absolute time (`Time` in `src/thread.rs`): `Monotonic(Instant)` or
`RealTime(SystemTime)`, both modelled as nanosecond counts. -/
inductive Time where
  | monotonic (instant : Nat)
  | realTime (sys : Nat)
deriving DecidableEq, Repr

/-- The one-shot timeout closures created by the shims, defunctionalized.
`condTimedwait` captures the active thread, the mutex id, the condvar id and
the caller's return place (`dest`), exactly the captures of the closure in
`pthread_cond_timedwait` (src/shims/sync.rs).  `nanosleepUnblock` captures the
active thread, the capture of the closure in `nanosleep`
(src/shims/thread.rs). -/
inductive TimeoutCallback where
  | condTimedwait (thread mutexId condId dest : Nat)
  | nanosleepUnblock (thread : Nat)
deriving DecidableEq, Repr

/-- `TimeoutCallbackInfo` in `src/thread.rs`. -/
structure TimeoutCallbackInfo where
  call_time : Time
  callback : TimeoutCallback
deriving DecidableEq, Repr

/-- `SchedulingAction` in `src/thread.rs`. -/
inductive SchedulingAction where
  | executeStep
  | executeTimeoutCallback
  | executeDtors
  | stop
deriving DecidableEq, Repr

/-- Interpreter-level outcomes that abort the current step:
undefined behavior (`throw_ub_format!`), unsupported operations
(`throw_unsup_format!`), the deadlock machine stop
(`throw_machine_stop!(TerminationInfo::Deadlock)`), and host panics
(failed `assert!`, `unwrap`, `unwrap_none`, `unreachable!`). -/
inductive InterpError where
  | undefinedBehavior (msg : String)
  | unsupported (msg : String)
  | deadlock
  | panicked (msg : String)
deriving DecidableEq, Repr

/-- Modelled from the spec: the `Mutex` record of the synchronization state
(its source module `src/sync.rs` is not among the given sources); §3 Data
Model: owner, non-negative lock count, FIFO queue of waiting threads. -/
structure Mutex where
  owner : Option Nat
  lock_count : Nat
  queue : List Nat
deriving DecidableEq, Repr

/-- Modelled from the spec: the `RwLock` record; §3: optional writer,
multiset of readers (a list; the same thread may occur repeatedly), FIFO
writer queue and FIFO reader queue. -/
structure RwLock where
  writer : Option Nat
  readers : List Nat
  writer_queue : List Nat
  reader_queue : List Nat
deriving DecidableEq, Repr

/-- Modelled from the spec: the `Condvar` record; §3: FIFO of
`(thread id, mutex id)` pairs. -/
structure Condvar where
  waiters : List (Nat × Nat)
deriving DecidableEq, Repr

/-- Modelled from the spec: `SynchronizationState` owns the primitive
records, keyed by dense ids ≥ 1 (id 0 is the reserved "unassigned" value);
id `i` lives at list index `i - 1`. -/
structure SynchronizationState where
  mutexes : List Mutex
  rwlocks : List RwLock
  condvars : List Condvar
deriving DecidableEq, Repr

/-- The thread manager together with the machine fields the embedded code
touches (`ThreadManager` in `src/thread.rs`; `time_anchor` and
`time_anchor_timestamp` live on the evaluator's machine; `ret_slots` models
the guest return places passed as `dest` to `pthread_cond_timedwait`). -/
structure Machine where
  active_thread : Nat
  threads : List Thread
  sync : SynchronizationState
  yield_active_thread : Bool
  timeout_callbacks : List (Nat × TimeoutCallbackInfo)
  time_anchor : Nat
  time_anchor_timestamp : Nat
  ret_slots : List Int
deriving DecidableEq, Repr

/-- `ThreadManager::default()`: the main thread (id 0) exists, is enabled and
detached; no primitives, no callbacks, yield flag clear. -/
def Machine.default : Machine :=
  { active_thread := 0
    threads := [{ Thread.default with join_status := .detached }]
    sync := { mutexes := [], rwlocks := [], condvars := [] }
    yield_active_thread := false
    timeout_callbacks := []
    time_anchor := 0
    time_anchor_timestamp := 0
    ret_slots := [] }

/-! libc constants.  The shims obtain these through the interpreter's
libc-constant lookup (`eval_libc`, an external collaborator); we fix the
Linux x86-64 values.  Only their distinctness matters to the control flow. -/

def PTHREAD_MUTEX_NORMAL : Int := 0
def PTHREAD_MUTEX_RECURSIVE : Int := 1
def PTHREAD_MUTEX_ERRORCHECK : Int := 2
def EPERM : Int := 1
def EBUSY : Int := 16
def EINVAL : Int := 22
def EDEADLK : Int := 35
def ETIMEDOUT : Int := 110
def CLOCK_REALTIME : Int := 0
def CLOCK_MONOTONIC : Int := 1

/-! ## Synchronization-state operations

Modelled from the spec: the module `crate::sync` implementing
`SynchronizationState` is referenced by the given sources
(`src/thread.rs` imports it; `src/shims/sync.rs` calls its operations) but
its source file is not among them.  The operations below follow §4.1 of the
specification word by word.  The real state indexes records by id (panicking
on an id never returned by `*_create`); these total models return the neutral
value / leave the state unchanged on an invalid id, and every theorem below
applies them to valid ids only. -/

def SynchronizationState.getMutex? (s : SynchronizationState) (id : Nat) : Option Mutex :=
  s.mutexes.get? (id - 1)

def SynchronizationState.setMutex (s : SynchronizationState) (id : Nat) (mx : Mutex) :
    SynchronizationState :=
  { s with mutexes := s.mutexes.set (id - 1) mx }

def SynchronizationState.getRwLock? (s : SynchronizationState) (id : Nat) : Option RwLock :=
  s.rwlocks.get? (id - 1)

def SynchronizationState.setRwLock (s : SynchronizationState) (id : Nat) (l : RwLock) :
    SynchronizationState :=
  { s with rwlocks := s.rwlocks.set (id - 1) l }

def SynchronizationState.getCondvar? (s : SynchronizationState) (id : Nat) : Option Condvar :=
  s.condvars.get? (id - 1)

def SynchronizationState.setCondvar (s : SynchronizationState) (id : Nat) (c : Condvar) :
    SynchronizationState :=
  { s with condvars := s.condvars.set (id - 1) c }

def Machine.getMutex? (m : Machine) (id : Nat) : Option Mutex := m.sync.getMutex? id

def Machine.setMutex (m : Machine) (id : Nat) (mx : Mutex) : Machine :=
  { m with sync := m.sync.setMutex id mx }

def Machine.getRwLock? (m : Machine) (id : Nat) : Option RwLock := m.sync.getRwLock? id

def Machine.setRwLock (m : Machine) (id : Nat) (l : RwLock) : Machine :=
  { m with sync := m.sync.setRwLock id l }

def Machine.getCondvar? (m : Machine) (id : Nat) : Option Condvar := m.sync.getCondvar? id

def Machine.setCondvar (m : Machine) (id : Nat) (c : Condvar) : Machine :=
  { m with sync := m.sync.setCondvar id c }

/-- Modelled from the spec: `mutex_create() → MutexId` allocates a fresh id
(≥ 1); the fresh mutex is unlocked with an empty queue. -/
def mutex_create (m : Machine) : Nat × Machine :=
  (m.sync.mutexes.length + 1,
    { m with sync :=
        { m.sync with mutexes := m.sync.mutexes ++ [⟨none, 0, []⟩] } })

/-- Modelled from the spec: `mutex_is_locked(id) → bool`
(owner present, equivalently lock count > 0). -/
def mutex_is_locked (m : Machine) (id : Nat) : Bool :=
  match m.getMutex? id with
  | some mx => mx.owner.isSome
  | none => false

/-- Modelled from the spec: `mutex_get_owner(id) → ThreadId` — requires
locked (only called under `mutex_is_locked`). -/
def mutex_get_owner (m : Machine) (id : Nat) : Nat :=
  match m.getMutex? id with
  | some mx => mx.owner.getD 0
  | none => 0

/-- Modelled from the spec: `mutex_lock(id, t)` — if unlocked: owner = t,
count = 1; if owner = t: count += 1.  "Must not be called when owned by
another thread" is the caller's obligation; like the real operation (which
only asserts), this model merely increments the count in that case. -/
def mutex_lock (m : Machine) (id : Nat) (t : Nat) : Machine :=
  match m.getMutex? id with
  | some mx =>
    match mx.owner with
    | none => m.setMutex id { mx with owner := some t, lock_count := mx.lock_count + 1 }
    | some _ => m.setMutex id { mx with lock_count := mx.lock_count + 1 }
  | none => m

/-- Modelled from the spec: `mutex_unlock(id) → Option<(owner, new_count)>` —
decrements; returns `None` if already unlocked.  When the count reaches 0 the
owner is cleared (invariant I1: `lock_count > 0 ⇔ owner = Some(t)`). -/
def mutex_unlock (m : Machine) (id : Nat) : Option (Nat × Nat) × Machine :=
  match m.getMutex? id with
  | some mx =>
    match mx.owner with
    | some owner =>
      let newCount := mx.lock_count - 1
      (some (owner, newCount),
        m.setMutex id
          { mx with
            owner := if newCount = 0 then none else some owner
            lock_count := newCount })
    | none => (none, m)
  | none => (none, m)

/-- Modelled from the spec: `mutex_enqueue(id, t)` — FIFO append. -/
def mutex_enqueue (m : Machine) (id : Nat) (t : Nat) : Machine :=
  match m.getMutex? id with
  | some mx => m.setMutex id { mx with queue := mx.queue ++ [t] }
  | none => m

/-- Modelled from the spec: `mutex_dequeue(id) → Option<ThreadId>` — FIFO pop
of the head. -/
def mutex_dequeue (m : Machine) (id : Nat) : Option Nat × Machine :=
  match m.getMutex? id with
  | some mx =>
    match mx.queue with
    | [] => (none, m)
    | t :: rest => (some t, m.setMutex id { mx with queue := rest })
  | none => (none, m)

/-- Modelled from the spec: `rwlock_create() → RwLockId`. -/
def rwlock_create (m : Machine) : Nat × Machine :=
  (m.sync.rwlocks.length + 1,
    { m with sync :=
        { m.sync with rwlocks := m.sync.rwlocks ++ [⟨none, [], [], []⟩] } })

/-- Modelled from the spec: `rwlock_is_locked(id)` — either writer-held or at
least one reader. -/
def rwlock_is_locked (m : Machine) (id : Nat) : Bool :=
  match m.getRwLock? id with
  | some l => l.writer.isSome || !l.readers.isEmpty
  | none => false

/-- Modelled from the spec: `rwlock_is_write_locked(id)`. -/
def rwlock_is_write_locked (m : Machine) (id : Nat) : Bool :=
  match m.getRwLock? id with
  | some l => l.writer.isSome
  | none => false

/-- Modelled from the spec: `rwlock_reader_add(id, t)` — adds one occurrence
of `t` to the reader multiset. -/
def rwlock_reader_add (m : Machine) (id : Nat) (t : Nat) : Machine :=
  match m.getRwLock? id with
  | some l => m.setRwLock id { l with readers := l.readers ++ [t] }
  | none => m

/-- Modelled from the spec: `rwlock_reader_remove(id, t) → bool` — removes one
occurrence of `t`, returning whether `t` was present. -/
def rwlock_reader_remove (m : Machine) (id : Nat) (t : Nat) : Bool × Machine :=
  match m.getRwLock? id with
  | some l =>
    if t ∈ l.readers then (true, m.setRwLock id { l with readers := l.readers.erase t })
    else (false, m)
  | none => (false, m)

/-- Modelled from the spec: `rwlock_writer_set(id, t)` — requires currently
unlocked (the caller's obligation; the model just stores the writer). -/
def rwlock_writer_set (m : Machine) (id : Nat) (t : Nat) : Machine :=
  match m.getRwLock? id with
  | some l => m.setRwLock id { l with writer := some t }
  | none => m

/-- Modelled from the spec: `rwlock_writer_remove(id) → Option<ThreadId>` —
clears the writer, returns the prior one. -/
def rwlock_writer_remove (m : Machine) (id : Nat) : Option Nat × Machine :=
  match m.getRwLock? id with
  | some l => (l.writer, m.setRwLock id { l with writer := none })
  | none => (none, m)

/-- Modelled from the spec: `rwlock_enqueue_writer(id, t)` — FIFO append. -/
def rwlock_enqueue_writer (m : Machine) (id : Nat) (t : Nat) : Machine :=
  match m.getRwLock? id with
  | some l => m.setRwLock id { l with writer_queue := l.writer_queue ++ [t] }
  | none => m

/-- Modelled from the spec: `rwlock_dequeue_writer(id) → Option<ThreadId>`. -/
def rwlock_dequeue_writer (m : Machine) (id : Nat) : Option Nat × Machine :=
  match m.getRwLock? id with
  | some l =>
    match l.writer_queue with
    | [] => (none, m)
    | t :: rest => (some t, m.setRwLock id { l with writer_queue := rest })
  | none => (none, m)

/-- Modelled from the spec: `rwlock_enqueue_reader(id, t)` — FIFO append. -/
def rwlock_enqueue_reader (m : Machine) (id : Nat) (t : Nat) : Machine :=
  match m.getRwLock? id with
  | some l => m.setRwLock id { l with reader_queue := l.reader_queue ++ [t] }
  | none => m

/-- Modelled from the spec: `rwlock_dequeue_reader(id) → Option<ThreadId>`. -/
def rwlock_dequeue_reader (m : Machine) (id : Nat) : Option Nat × Machine :=
  match m.getRwLock? id with
  | some l =>
    match l.reader_queue with
    | [] => (none, m)
    | t :: rest => (some t, m.setRwLock id { l with reader_queue := rest })
  | none => (none, m)

/-- Modelled from the spec: `condvar_create() → CondvarId`. -/
def condvar_create (m : Machine) : Nat × Machine :=
  (m.sync.condvars.length + 1,
    { m with sync := { m.sync with condvars := m.sync.condvars ++ [⟨[]⟩] } })

/-- Modelled from the spec: `condvar_wait(id, t, mutex_id)` — appends
`(t, mutex_id)` to the waiters. -/
def condvar_wait (m : Machine) (id : Nat) (t : Nat) (mutexId : Nat) : Machine :=
  match m.getCondvar? id with
  | some c => m.setCondvar id { c with waiters := c.waiters ++ [(t, mutexId)] }
  | none => m

/-- Modelled from the spec: `condvar_signal(id) → Option<(ThreadId, MutexId)>`
— FIFO pop of the head waiter. -/
def condvar_signal (m : Machine) (id : Nat) : Option (Nat × Nat) × Machine :=
  match m.getCondvar? id with
  | some c =>
    match c.waiters with
    | [] => (none, m)
    | w :: rest => (some w, m.setCondvar id { c with waiters := rest })
  | none => (none, m)

/-- Modelled from the spec: `condvar_is_awaited(id) → bool`. -/
def condvar_is_awaited (m : Machine) (id : Nat) : Bool :=
  match m.getCondvar? id with
  | some c => !c.waiters.isEmpty
  | none => false

/-- Modelled from the spec: `condvar_remove_waiter(id, t)` — used by timeout
callbacks; no-op if absent (drops every entry of thread `t`). -/
def condvar_remove_waiter (m : Machine) (id : Nat) (t : Nat) : Machine :=
  match m.getCondvar? id with
  | some c => m.setCondvar id { c with waiters := c.waiters.filter (fun w => w.1 ≠ t) }
  | none => m

/-! ## Thread-manager operations (`src/thread.rs`) -/

def Machine.getThread? (m : Machine) (t : Nat) : Option Thread := m.threads.get? t

def Machine.setThread (m : Machine) (t : Nat) (th : Thread) : Machine :=
  { m with threads := m.threads.set t th }

/-- `ThreadManager::create_thread`: pushes a new default thread, returning its
fresh id. -/
def create_thread (m : Machine) : Nat × Machine :=
  (m.threads.length, { m with threads := m.threads ++ [Thread.default] })

/-- `ThreadManager::set_active_thread_id`: returns the previous active thread;
asserts the new id is a valid index. -/
def set_active_thread_id (m : Machine) (id : Nat) : Except InterpError (Nat × Machine) :=
  if id < m.threads.length then .ok (m.active_thread, { m with active_thread := id })
  else .error (.panicked "assertion failed: active_thread index within threads")

/-- `ThreadManager::block_thread`: asserts the state is `Enabled`, sets
`BlockedOnSync`. -/
def block_thread (m : Machine) (t : Nat) : Except InterpError Machine :=
  match m.getThread? t with
  | some th =>
    if th.state = .enabled then .ok (m.setThread t { th with state := .blockedOnSync })
    else .error (.panicked "assertion failed: blocked thread was not Enabled")
  | none => .error (.panicked "thread index out of bounds")

/-- `ThreadManager::unblock_thread`: asserts the state is `BlockedOnSync`,
sets `Enabled`. -/
def unblock_thread (m : Machine) (t : Nat) : Except InterpError Machine :=
  match m.getThread? t with
  | some th =>
    if th.state = .blockedOnSync then .ok (m.setThread t { th with state := .enabled })
    else .error (.panicked "assertion failed: unblocked thread was not BlockedOnSync")
  | none => .error (.panicked "thread index out of bounds")

/-- `ThreadManager::register_timeout_callback`: inserts into the callback
table; `unwrap_none` panics if the thread already has a pending callback. -/
def register_timeout_callback (m : Machine) (t : Nat) (callTime : Time)
    (cb : TimeoutCallback) : Except InterpError Machine :=
  match m.timeout_callbacks.lookup t with
  | some _ => .error (.panicked "unwrap_none: thread already has a timeout callback")
  | none =>
    .ok { m with timeout_callbacks := m.timeout_callbacks ++ [(t, ⟨callTime, cb⟩)] }

/-- `ThreadManager::unregister_timeout_callback_if_exists`: removes the
thread's entry, if any. -/
def unregister_timeout_callback_if_exists (m : Machine) (t : Nat) : Machine :=
  { m with timeout_callbacks := m.timeout_callbacks.filter (fun p => p.1 ≠ t) }

/-! ## Scheduler (`ThreadManager::schedule` and its helpers) -/

/-- The loop in `schedule` that unblocks every thread in
`BlockedOnJoin(active)` once the active thread has just terminated. -/
def unblock_join_waiters (m : Machine) (target : Nat) : Machine :=
  { m with threads := m.threads.map (fun th =>
      if th.state = .blockedOnJoin target then { th with state := .enabled } else th) }

/-- The thread-picking scan in `schedule`: the first thread in index order
that is `Enabled` and, when the yield flag is set, is not the current active
thread; the active thread is left unchanged when the scan finds nothing. -/
def find_new_active_from (yieldFlag : Bool) (active : Nat) : Nat → List Thread → Nat
  | _, [] => active
  | i, th :: rest =>
    if th.state = .enabled ∧ (yieldFlag = false ∨ i ≠ active) then i
    else find_new_active_from yieldFlag active (i + 1) rest

def find_new_active (m : Machine) : Nat :=
  find_new_active_from m.yield_active_thread m.active_thread 0 m.threads

/-- The strict order on tagged times used by `min_by_key(|info| info.call_time)`
in `schedule`.  The sources never define an `Ord` for `Time` (part of the
residue in that function); we use the order Rust's `#[derive(Ord)]` would
produce: variants in declaration order, then the payload. -/
def Time.lt : Time → Time → Bool
  | .monotonic a, .monotonic b => a < b
  | .monotonic _, .realTime _ => true
  | .realTime _, .monotonic _ => false
  | .realTime a, .realTime b => a < b

/-- `self.timeout_callbacks.values().min_by_key(|info| info.call_time)`;
Rust's `min_by_key` keeps the first of equally minimal elements. -/
def min_by_call_time (l : List (Nat × TimeoutCallbackInfo)) : Option TimeoutCallbackInfo :=
  l.foldl
    (fun acc p =>
      match acc with
      | none => some p.2
      | some best => if Time.lt p.2.call_time best.call_time then some p.2 else some best)
    none

/-- The nanosecond payload of a tagged time.  Mirrors
`next_call_time.call_time.checked_duration_since(Instant::now())` in
`schedule` (src/thread.rs), which applies the `Instant` comparison to the
tagged `call_time` regardless of its variant: the stored timestamp is
compared against the monotonic clock even for `RealTime` values. -/
def Time.instant : Time → Nat
  | .monotonic i => i
  | .realTime s => s

/-- `Instant::checked_duration_since`: `none` when the time already passed. -/
def checked_duration_since (t now : Nat) : Option Nat :=
  if now ≤ t then some (t - now) else none

/-- `ThreadManager::schedule` (src/thread.rs).  `monoNow` and `realNow` are
the values `Instant::now()` and `SystemTime::now()` would return; the
function never consults `realNow`.  The result's middle component is the real
wall-time sleep the scheduler performs before returning (`none`: no sleep).
The dead per-thread scan inside the blocked-but-has-timeout branch of the
source (unbound variables, `return Some(..)` in a function returning
`InterpResult`) cannot be given a meaning and is skipped, as the
specification's open question prescribes. -/
def schedule (monoNow realNow : Nat) (m : Machine) :
    Except InterpError (SchedulingAction × Option Nat × Machine) :=
  match m.getThread? m.active_thread with
  | none => .error (.panicked "thread index out of bounds")
  | some th =>
    if th.state = .enabled ∧ th.stack = [] then
      let m := m.setThread m.active_thread { th with state := .terminated }
      let m := unblock_join_waiters m m.active_thread
      .ok (.executeDtors, none, m)
    else
      match m.getThread? 0 with
      | none => .error (.panicked "thread index out of bounds")
      | some mainTh =>
        if mainTh.state = .terminated then
          if m.threads.any (fun t => t.state ≠ .terminated) then
            .error (.unsupported "the main thread terminated without waiting for other threads")
          else .ok (.stop, none, m)
        else if th.state = .enabled ∧ m.yield_active_thread = false then
          .ok (.executeStep, none, m)
        else
          let m' := { m with active_thread := find_new_active m, yield_active_thread := false }
          match m'.getThread? m'.active_thread with
          | none => .error (.panicked "thread index out of bounds")
          | some th' =>
            if th'.state = .enabled then .ok (.executeStep, none, m')
            else if m'.threads.all (fun t => t.state = .terminated) then
              .error (.panicked "unreachable")
            else
              match min_by_call_time m'.timeout_callbacks with
              | some info =>
                .ok (.executeTimeoutCallback,
                  checked_duration_since info.call_time.instant monoNow, m')
              | none => .error .deadlock

/-- Modelled from the spec: `callback.get_wait_time()` is called by
`get_next_callback_wait_time` but is not defined in the given sources;
§4.2: the duration until the entry's `call_time`, measured on the
clock matching its variant (saturating at zero once passed). -/
def TimeoutCallbackInfo.get_wait_time (info : TimeoutCallbackInfo)
    (monoNow realNow : Nat) : Nat :=
  match info.call_time with
  | .monotonic i => i - monoNow
  | .realTime s => s - realNow

/-- `ThreadManager::get_next_callback_wait_time` (src/thread.rs): takes the
first entry the table's value iterator yields (the embedding's table is an
association list in insertion order; its head is that first entry) and
returns that entry's wait time; `none` when the table is empty. -/
def get_next_callback_wait_time (monoNow realNow : Nat) (m : Machine) : Option Nat :=
  match m.timeout_callbacks with
  | [] => none
  | p :: _ => some (p.2.get_wait_time monoNow realNow)

/-! ## Shim-level helpers and callbacks (`src/shims/sync.rs`) -/

/-- The value written to a caller's return place by `pthread_cond_timedwait`
or, later, by its timeout callback. -/
def write_ret_slot (m : Machine) (dest : Nat) (v : Int) : Machine :=
  { m with ret_slots := m.ret_slots.set dest v }

/-- `reacquire_cond_mutex` (src/shims/sync.rs): enqueue if the mutex is
locked, otherwise lock it for the thread and unblock the thread. -/
def reacquire_cond_mutex (m : Machine) (thread : Nat) (mutex : Nat) :
    Except InterpError Machine :=
  if mutex_is_locked m mutex then .ok (mutex_enqueue m mutex thread)
  else
    match unblock_thread (mutex_lock m mutex thread) thread with
    | .ok m => .ok m
    | .error e => .error e

/-- `release_cond_mutex` (src/shims/sync.rs): unlock the mutex (UB when not
locked, unsupported when held recursively, UB when owned by another thread),
hand it to the first queued waiter if any, then block the releasing thread. -/
def release_cond_mutex (m : Machine) (active : Nat) (mutex : Nat) :
    Except InterpError Machine :=
  match mutex_unlock m mutex with
  | (some (owner, cnt), m) =>
    if cnt ≠ 0 then
      .error (.unsupported "awaiting on multiple times acquired lock is not supported")
    else if owner ≠ active then
      .error (.undefinedBehavior "awaiting on a mutex owned by a different thread")
    else
      match mutex_dequeue m mutex with
      | (some t, m) =>
        (match unblock_thread (mutex_lock m mutex t) t with
         | .ok m => block_thread m active
         | .error e => .error e)
      | (none, m) => block_thread m active
  | (none, _) => .error (.undefinedBehavior "awaiting on unlocked mutex")

/-- Interpretation of the defunctionalized one-shot timeout closures.  The
`condTimedwait` body is the closure registered by `pthread_cond_timedwait`:
reacquire the mutex, remove the thread from the condvar, overwrite the
return place with `ETIMEDOUT`.  The `nanosleepUnblock` body is the closure
registered by `nanosleep`: unblock the sleeping thread. -/
def run_callback (cb : TimeoutCallback) (m : Machine) : Except InterpError Machine :=
  match cb with
  | .condTimedwait thread mutexId condId dest =>
    (match reacquire_cond_mutex m thread mutexId with
     | .ok m =>
       let m := condvar_remove_waiter m condId thread
       .ok (write_ret_slot m dest ETIMEDOUT)
     | .error e => .error e)
  | .nanosleepUnblock thread => unblock_thread m thread

/-! ## Guest objects

The shims keep per-primitive data at fixed byte offsets inside the guest's
`pthread_*_t` objects; each record below holds exactly the fields the given
shims read or write.  An id of 0 means "not assigned yet"; `none` in a field
models uninitialized bytes (`ScalarMaybeUndef::Undef`, whose `not_undef`
read fails with a validity error). -/

/-- `pthread_mutex_t`: bytes 4–7 the u32 id, bytes 12–15/16–19 the i32 kind. -/
structure MutexObj where
  id : Nat
  kind : Option Int
deriving DecidableEq, Repr

/-- `pthread_rwlock_t`: bytes 12–15 the u32 id (see `rwlock_get_id`). -/
structure RwLockObj where
  id : Nat
deriving DecidableEq, Repr

/-- `pthread_cond_t`: bytes 4–7 the u32 id, bytes 8–11 the i32 clock id. -/
structure CondObj where
  id : Nat
  clock_id : Option Int
deriving DecidableEq, Repr

/-- A guest `timespec`: a seconds field and a nanoseconds field. -/
structure TimespecObj where
  tv_sec : Nat
  tv_nsec : Nat
deriving DecidableEq, Repr

/-- `ScalarMaybeUndef::not_undef`: reading uninitialized bytes is an error. -/
def not_undef (v : Option Int) : Except InterpError Int :=
  match v with
  | some k => .ok k
  | none => .error (.undefinedBehavior "using uninitialized data")

/-- `mutex_get_or_create_id` (src/shims/sync.rs): read the id field; 0 means
unassigned, so allocate a fresh mutex and store the id back. -/
def mutex_get_or_create_id (obj : MutexObj) (m : Machine) : Nat × MutexObj × Machine :=
  if obj.id = 0 then
    let r := mutex_create m
    (r.1, { obj with id := r.1 }, r.2)
  else (obj.id, obj, m)

/-- `rwlock_get_or_create_id` (src/shims/sync.rs). -/
def rwlock_get_or_create_id (obj : RwLockObj) (m : Machine) : Nat × RwLockObj × Machine :=
  if obj.id = 0 then
    let r := rwlock_create m
    (r.1, { obj with id := r.1 }, r.2)
  else (obj.id, obj, m)

/-- `cond_get_or_create_id` (src/shims/sync.rs). -/
def cond_get_or_create_id (obj : CondObj) (m : Machine) : Nat × CondObj × Machine :=
  if obj.id = 0 then
    let r := condvar_create m
    (r.1, { obj with id := r.1 }, r.2)
  else (obj.id, obj, m)

/-! ## POSIX shims (`src/shims/sync.rs`, `src/shims/thread.rs`)

Each shim returns the `i32` result together with the guest object it may have
updated (lazy id assignment) and the new machine.  An `Except` error is an
interpreter-level abort (UB / unsupported / machine stop / panic): the
interpreter halts at the current step, so no machine state is produced. -/

/-- `pthread_mutex_lock` (src/shims/sync.rs). -/
def pthread_mutex_lock (obj : MutexObj) (m : Machine) :
    Except InterpError (Int × MutexObj × Machine) :=
  match not_undef obj.kind with
  | .error e => .error e
  | .ok kind =>
    let r := mutex_get_or_create_id obj m
    let id := r.1
    let obj := r.2.1
    let m := r.2.2
    let active := m.active_thread
    if mutex_is_locked m id then
      let owner := mutex_get_owner m id
      if owner ≠ active then
        match block_thread m active with
        | .ok m => .ok (0, obj, mutex_enqueue m id active)
        | .error e => .error e
      else
        if kind = PTHREAD_MUTEX_NORMAL then .error .deadlock
        else if kind = PTHREAD_MUTEX_ERRORCHECK then .ok (EDEADLK, obj, m)
        else if kind = PTHREAD_MUTEX_RECURSIVE then .ok (0, obj, mutex_lock m id active)
        else .error (.undefinedBehavior
          "called pthread_mutex_lock on an unsupported type of mutex")
    else .ok (0, obj, mutex_lock m id active)

/-- `pthread_mutex_trylock` (src/shims/sync.rs). -/
def pthread_mutex_trylock (obj : MutexObj) (m : Machine) :
    Except InterpError (Int × MutexObj × Machine) :=
  match not_undef obj.kind with
  | .error e => .error e
  | .ok kind =>
    let r := mutex_get_or_create_id obj m
    let id := r.1
    let obj := r.2.1
    let m := r.2.2
    let active := m.active_thread
    if mutex_is_locked m id then
      let owner := mutex_get_owner m id
      if owner ≠ active then .ok (EBUSY, obj, m)
      else
        if kind = PTHREAD_MUTEX_NORMAL ∨ kind = PTHREAD_MUTEX_ERRORCHECK then
          .ok (EBUSY, obj, m)
        else if kind = PTHREAD_MUTEX_RECURSIVE then .ok (0, obj, mutex_lock m id active)
        else .error (.undefinedBehavior
          "called pthread_mutex_trylock on an unsupported type of mutex")
    else .ok (0, obj, mutex_lock m id active)

/-- `pthread_mutex_unlock` (src/shims/sync.rs). -/
def pthread_mutex_unlock (obj : MutexObj) (m : Machine) :
    Except InterpError (Int × MutexObj × Machine) :=
  match not_undef obj.kind with
  | .error e => .error e
  | .ok kind =>
    let r := mutex_get_or_create_id obj m
    let id := r.1
    let obj := r.2.1
    let m := r.2.2
    match mutex_unlock m id with
    | (some (owner, newCount), m) =>
      if owner ≠ m.active_thread then
        .error (.undefinedBehavior
          "called pthread_mutex_unlock on a mutex owned by another thread")
      else if newCount = 0 then
        match mutex_dequeue m id with
        | (some t, m) =>
          (match unblock_thread (mutex_lock m id t) t with
           | .ok m => .ok (0, obj, m)
           | .error e => .error e)
        | (none, m) => .ok (0, obj, m)
      else .ok (0, obj, m)
    | (none, m) =>
      if kind = PTHREAD_MUTEX_NORMAL then
        .error (.undefinedBehavior "unlocked a PTHREAD_MUTEX_NORMAL mutex that was not locked")
      else if kind = PTHREAD_MUTEX_ERRORCHECK then .ok (EPERM, obj, m)
      else if kind = PTHREAD_MUTEX_RECURSIVE then .ok (EPERM, obj, m)
      else .error (.undefinedBehavior
        "called pthread_mutex_unlock on an unsupported type of mutex")

/-- `pthread_rwlock_rdlock` (src/shims/sync.rs). -/
def pthread_rwlock_rdlock (obj : RwLockObj) (m : Machine) :
    Except InterpError (Int × RwLockObj × Machine) :=
  let r := rwlock_get_or_create_id obj m
  let id := r.1
  let obj := r.2.1
  let m := r.2.2
  let active := m.active_thread
  if rwlock_is_write_locked m id then
    let m := rwlock_enqueue_reader m id active
    match block_thread m active with
    | .ok m => .ok (0, obj, m)
    | .error e => .error e
  else .ok (0, obj, rwlock_reader_add m id active)

/-- `pthread_rwlock_tryrdlock` (src/shims/sync.rs). -/
def pthread_rwlock_tryrdlock (obj : RwLockObj) (m : Machine) :
    Except InterpError (Int × RwLockObj × Machine) :=
  let r := rwlock_get_or_create_id obj m
  let id := r.1
  let obj := r.2.1
  let m := r.2.2
  let active := m.active_thread
  if rwlock_is_write_locked m id then .ok (EBUSY, obj, m)
  else .ok (0, obj, rwlock_reader_add m id active)

/-- `pthread_rwlock_wrlock` (src/shims/sync.rs). -/
def pthread_rwlock_wrlock (obj : RwLockObj) (m : Machine) :
    Except InterpError (Int × RwLockObj × Machine) :=
  let r := rwlock_get_or_create_id obj m
  let id := r.1
  let obj := r.2.1
  let m := r.2.2
  let active := m.active_thread
  if rwlock_is_locked m id then
    match block_thread m active with
    | .ok m => .ok (0, obj, rwlock_enqueue_writer m id active)
    | .error e => .error e
  else .ok (0, obj, rwlock_writer_set m id active)

/-- `pthread_rwlock_trywrlock` (src/shims/sync.rs). -/
def pthread_rwlock_trywrlock (obj : RwLockObj) (m : Machine) :
    Except InterpError (Int × RwLockObj × Machine) :=
  let r := rwlock_get_or_create_id obj m
  let id := r.1
  let obj := r.2.1
  let m := r.2.2
  let active := m.active_thread
  if rwlock_is_locked m id then .ok (EBUSY, obj, m)
  else .ok (0, obj, rwlock_writer_set m id active)

/-- The reader-drain loop at the end of the writer branch of
`pthread_rwlock_unlock`: `while let Some(reader) = rwlock_dequeue_reader`,
unblock the reader, add it to the readers.  The fuel is one more than the
reader queue's length, which the loop can never exhaust. -/
def rwlock_grant_readers_go (id : Nat) : Nat → Machine → Except InterpError Machine
  | 0, m => .ok m
  | fuel + 1, m =>
    match rwlock_dequeue_reader m id with
    | (none, m) => .ok m
    | (some t, m) =>
      match unblock_thread m t with
      | .ok m => rwlock_grant_readers_go id fuel (rwlock_reader_add m id t)
      | .error e => .error e

/-- `pthread_rwlock_unlock` (src/shims/sync.rs).  NOTE: in the reader branch
the source checks `if this.rwlock_is_locked(id)` before handing the lock to a
queued writer, although its own comment on that branch reads "No more readers
owning the lock" (which would be `!is_locked`); the embedding follows the
source text. -/
def pthread_rwlock_unlock (obj : RwLockObj) (m : Machine) :
    Except InterpError (Int × RwLockObj × Machine) :=
  let r := rwlock_get_or_create_id obj m
  let id := r.1
  let obj := r.2.1
  let m := r.2.2
  let active := m.active_thread
  match rwlock_reader_remove m id active with
  | (true, m) =>
    if rwlock_is_locked m id then
      match rwlock_dequeue_writer m id with
      | (some w, m) =>
        (match unblock_thread m w with
         | .ok m => .ok (0, obj, rwlock_writer_set m id w)
         | .error e => .error e)
      | (none, m) => .ok (0, obj, m)
    else .ok (0, obj, m)
  | (false, m) =>
    match rwlock_writer_remove m id with
    | (prior, m) =>
      if some active = prior then
        match rwlock_dequeue_writer m id with
        | (some w, m) =>
          (match unblock_thread m w with
           | .ok m => .ok (0, obj, rwlock_writer_set m id w)
           | .error e => .error e)
        | (none, m) =>
          let fuel := (((m.getRwLock? id).map (fun l => l.reader_queue.length)).getD 0) + 1
          match rwlock_grant_readers_go id fuel m with
          | .ok m => .ok (0, obj, m)
          | .error e => .error e
      else .error (.undefinedBehavior "unlocked an rwlock that was not locked by the active thread")

/-- `pthread_cond_signal` (src/shims/sync.rs): pop one waiter; if there was
one, reacquire its mutex and unregister its timeout callback, if any. -/
def pthread_cond_signal (obj : CondObj) (m : Machine) :
    Except InterpError (Int × CondObj × Machine) :=
  let r := cond_get_or_create_id obj m
  let id := r.1
  let obj := r.2.1
  let m := r.2.2
  match condvar_signal m id with
  | (some (thread, mutex), m) =>
    (match reacquire_cond_mutex m thread mutex with
     | .ok m => .ok (0, obj, unregister_timeout_callback_if_exists m thread)
     | .error e => .error e)
  | (none, m) => .ok (0, obj, m)

/-- The conversion of the decoded `abstime` duration into the callback's call
time in `pthread_cond_timedwait` (src/shims/sync.rs, the `timeout_time`
computation).  Both clock branches produce a monotonic `Instant`:
`CLOCK_REALTIME` subtracts the machine's `time_anchor_timestamp` (wall-clock
anchor, a panicking `checked_sub().unwrap()`) and adds the result to
`time_anchor`; `CLOCK_MONOTONIC` adds the duration to `time_anchor`. -/
def cond_timeout_time (anchor anchorTimestamp : Nat) (clockId : Int) (duration : Nat) :
    Except InterpError Nat :=
  if clockId = CLOCK_REALTIME then
    if anchorTimestamp ≤ duration then
      .ok (anchor + (duration - anchorTimestamp))
    else .error (.panicked "checked_sub returned None")
  else if clockId = CLOCK_MONOTONIC then .ok (anchor + duration)
  else .error (.undefinedBehavior "Unsupported clock id.")

/-- The `abstime` decoding in `pthread_cond_timedwait`: seconds and
nanoseconds are read as `u64`, the nanoseconds truncated `as u32`, and
combined by `Duration::new` — with NO bound check on the nanoseconds field
(contrast `posix_timespec_to_duration`). -/
def cond_abstime_duration (ts : TimespecObj) : Nat :=
  ts.tv_sec * 1000000000 + ts.tv_nsec % 4294967296

/-- `pthread_cond_timedwait` (src/shims/sync.rs).  `dest` is the caller's
return place.  The `check_no_isolation` guard is an external collaborator and
is modelled as passing.  The manager-side `register_timeout_callback` takes a
tagged `Time` while this shim passes the plain `Instant` it computed in both
clock branches (the trait signature in src/thread.rs lists an extra `clock`
argument the shim never supplies — residue); the embedding therefore wraps
the computed instant as `Time.monotonic`, which is what an `Instant` is. -/
def pthread_cond_timedwait (condObj : CondObj) (mutexObj : MutexObj)
    (abstime : TimespecObj) (dest : Nat) (m : Machine) :
    Except InterpError (CondObj × MutexObj × Machine) :=
  let rc := cond_get_or_create_id condObj m
  let id := rc.1
  let condObj := rc.2.1
  let rm := mutex_get_or_create_id mutexObj rc.2.2
  let mutexId := rm.1
  let mutexObj := rm.2.1
  let m := rm.2.2
  let active := m.active_thread
  match release_cond_mutex m active mutexId with
  | .error e => .error e
  | .ok m =>
    let m := condvar_wait m id active mutexId
    let m := write_ret_slot m dest 0
    match not_undef condObj.clock_id with
    | .error e => .error e
    | .ok clockId =>
      let duration := cond_abstime_duration abstime
      match cond_timeout_time m.time_anchor m.time_anchor_timestamp clockId duration with
      | .error e => .error e
      | .ok timeoutTime =>
        match register_timeout_callback m active (.monotonic timeoutTime)
            (.condTimedwait active mutexId id dest) with
        | .ok m => .ok (condObj, mutexObj, m)
        | .error e => .error e

/-- `pthread_cond_destroy` (src/shims/sync.rs). -/
def pthread_cond_destroy (obj : CondObj) (m : Machine) :
    Except InterpError (Int × CondObj × Machine) :=
  let r := cond_get_or_create_id obj m
  let id := r.1
  let obj := r.2.1
  let m := r.2.2
  if condvar_is_awaited m id then
    .error (.undefinedBehavior "destroyed an awaited conditional variable")
  else .ok (0, { obj with id := 0, clock_id := none }, m)

/-- `posix_timespec_to_duration` (src/shims/thread.rs): decode a `timespec`
into a duration; a nanoseconds field above 999 999 999 is UB.  Both
pointer-width branches of the source perform this same check. -/
def posix_timespec_to_duration (ts : TimespecObj) : Except InterpError Nat :=
  if ts.tv_nsec > 999999999 then
    .error (.undefinedBehavior
      ("the provided value for nanoseconds is " ++ toString ts.tv_nsec ++
        ", but should be less than a billion"))
  else .ok (ts.tv_sec * 1000000000 + ts.tv_nsec)

/-- `nanosleep` (src/shims/thread.rs): decode the request (UB aborts the call
before any state change), block the caller, register the wake-up callback at
`Instant::now() + duration` (a monotonic time; see the note on
`pthread_cond_timedwait` about the `Time` wrapping). -/
def nanosleep (monoNow : Nat) (req : TimespecObj) (m : Machine) :
    Except InterpError (Int × Machine) :=
  let active := m.active_thread
  match posix_timespec_to_duration req with
  | .error e => .error e
  | .ok duration =>
    let timeout := monoNow + duration
    match block_thread m active with
    | .error e => .error e
    | .ok m =>
      match register_timeout_callback m active (.monotonic timeout)
          (.nanosleepUnblock active) with
      | .ok m => .ok (0, m)
      | .error e => .error e

/-! ## Concrete fixtures used by the theorems below -/

/-- An enabled thread with a (non-empty) stack. -/
def enabledThread : Thread := { Thread.default with stack := [()] }

/-- A thread blocked on a synchronization primitive. -/
def blockedThread : Thread := { enabledThread with state := .blockedOnSync }

/-- The main thread: enabled, detached. -/
def mainThread : Thread := { enabledThread with join_status := .detached }

/-- Threads 1 and 2 hold rwlock 1 for reading; thread 3 is blocked waiting to
write; thread 1 (the active thread) is about to unlock. -/
def machineA : Machine :=
  { Machine.default with
    active_thread := 1
    threads := [mainThread, enabledThread, enabledThread, blockedThread]
    sync := { mutexes := [], rwlocks := [⟨none, [1, 2], [3], []⟩], condvars := [] } }

/-- Thread 1 is the only reader of rwlock 1; thread 3 is blocked waiting to
write; thread 1 (the active thread) is about to unlock. -/
def machineB : Machine :=
  { machineA with sync := { mutexes := [], rwlocks := [⟨none, [1], [3], []⟩], condvars := [] } }

/-- A run from the initial machine using only thread creation, activation and
the rwlock shims: threads 1 and 2 take rwlock 1 for reading, thread 3 blocks
waiting to write, then thread 1 unlocks. -/
def C2_run : Except InterpError Machine :=
  let m := Machine.default
  let m := (create_thread m).2
  let m := (create_thread m).2
  let m := (create_thread m).2
  match set_active_thread_id m 1 with
  | .error e => .error e
  | .ok (_, m) =>
    match pthread_rwlock_rdlock ⟨0⟩ m with
    | .error e => .error e
    | .ok (_, obj, m) =>
      match set_active_thread_id m 2 with
      | .error e => .error e
      | .ok (_, m) =>
        match pthread_rwlock_rdlock obj m with
        | .error e => .error e
        | .ok (_, obj, m) =>
          match set_active_thread_id m 3 with
          | .error e => .error e
          | .ok (_, m) =>
            match pthread_rwlock_wrlock obj m with
            | .error e => .error e
            | .ok (_, obj, m) =>
              match set_active_thread_id m 1 with
              | .error e => .error e
              | .ok (_, m) =>
                match pthread_rwlock_unlock obj m with
                | .error e => .error e
                | .ok (_, _, m) => .ok m

/-- Single (main) thread, blocked, with one pending `RealTime 500` timeout
callback; `Instant::now()` will be 100 and `SystemTime::now()` 1000. -/
def mC3 : Machine :=
  { Machine.default with
    threads := [{ mainThread with state := .blockedOnSync }]
    timeout_callbacks := [(0, ⟨.realTime 500, .nanosleepUnblock 0⟩)] }

/-- Two pending monotonic callbacks; the first entry of the table is due at
1000, the second at 50. -/
def mC7 : Machine :=
  { Machine.default with
    threads := [mainThread, blockedThread, blockedThread]
    timeout_callbacks :=
      [(1, ⟨.monotonic 1000, .nanosleepUnblock 1⟩),
        (2, ⟨.monotonic 50, .nanosleepUnblock 2⟩)] }

/-- The main thread holds mutex 1 (count 1); condvar 1 exists with no
waiters; one return slot; time anchors 1000 (monotonic) / 200 (wall). -/
def mC6 : Machine :=
  { Machine.default with
    threads := [mainThread]
    sync := { mutexes := [⟨some 0, 1, []⟩], rwlocks := [], condvars := [⟨[]⟩] }
    time_anchor := 1000
    time_anchor_timestamp := 200
    ret_slots := [7] }

/-- A `pthread_cond_t` with assigned id 1 and stored clock `CLOCK_REALTIME`. -/
def condObjR : CondObj := ⟨1, some CLOCK_REALTIME⟩

/-- A `pthread_mutex_t` with assigned id 1 and kind `PTHREAD_MUTEX_NORMAL`. -/
def mutexObjN : MutexObj := ⟨1, some PTHREAD_MUTEX_NORMAL⟩

/-- The main thread holds mutex 1 (count 1) and thread 1 is blocked waiting
on that mutex's queue. -/
def mC5 : Machine :=
  { Machine.default with
    threads := [mainThread, blockedThread]
    sync := { mutexes := [⟨some 0, 1, [1]⟩], rwlocks := [], condvars := [] } }

/-- A single enabled (main) thread that has just called `sched_yield`. -/
def mC9w : Machine :=
  { Machine.default with threads := [mainThread], yield_active_thread := true }

/-! ## Helper lemmas -/

theorem get?_set_of_get? {α : Type} (l : List α) (i : Nat) (a x : α)
    (h : l.get? i = some a) : (l.set i x).get? i = some x := by
  have hi : i < l.length := by
    rw [List.get?_eq_getElem?] at h
    exact (List.getElem?_eq_some.mp h).1
  rw [List.get?_eq_getElem?, List.getElem?_set_self hi]

theorem getMutex?_setMutex (m : Machine) (id : Nat) (mx a : Mutex)
    (h : m.getMutex? id = some mx) : (m.setMutex id a).getMutex? id = some a :=
  get?_set_of_get? _ _ _ _ h

theorem getRwLock?_setRwLock (m : Machine) (id : Nat) (l a : RwLock)
    (h : m.getRwLock? id = some l) : (m.setRwLock id a).getRwLock? id = some a :=
  get?_set_of_get? _ _ _ _ h

theorem getCondvar?_setCondvar (m : Machine) (id : Nat) (c a : Condvar)
    (h : m.getCondvar? id = some c) : (m.setCondvar id a).getCondvar? id = some a :=
  get?_set_of_get? _ _ _ _ h

theorem getThread?_setThread (m : Machine) (t : Nat) (th a : Thread)
    (h : m.getThread? t = some th) : (m.setThread t a).getThread? t = some a :=
  get?_set_of_get? _ _ _ _ h

theorem setMutex_setMutex (m : Machine) (id : Nat) (a b : Mutex) :
    (m.setMutex id a).setMutex id b = m.setMutex id b := by
  simp [Machine.setMutex, SynchronizationState.setMutex, List.set_set]

/-! Frame lemmas: each state updater touches exactly one component of the
machine, so every other accessor passes through it (all definitional). -/

@[simp] theorem setMutex_active_thread (m : Machine) (id : Nat) (a : Mutex) :
    (m.setMutex id a).active_thread = m.active_thread := rfl

@[simp] theorem getThread?_setMutex (m : Machine) (id : Nat) (a : Mutex) (t : Nat) :
    (m.setMutex id a).getThread? t = m.getThread? t := rfl

@[simp] theorem getCondvar?_setMutex (m : Machine) (id : Nat) (a : Mutex) (c : Nat) :
    (m.setMutex id a).getCondvar? c = m.getCondvar? c := rfl

@[simp] theorem setMutex_ret_slots (m : Machine) (id : Nat) (a : Mutex) :
    (m.setMutex id a).ret_slots = m.ret_slots := rfl

@[simp] theorem setMutex_timeout_callbacks (m : Machine) (id : Nat) (a : Mutex) :
    (m.setMutex id a).timeout_callbacks = m.timeout_callbacks := rfl

@[simp] theorem setMutex_time_anchor (m : Machine) (id : Nat) (a : Mutex) :
    (m.setMutex id a).time_anchor = m.time_anchor := rfl

@[simp] theorem setMutex_time_anchor_timestamp (m : Machine) (id : Nat) (a : Mutex) :
    (m.setMutex id a).time_anchor_timestamp = m.time_anchor_timestamp := rfl

@[simp] theorem setThread_active_thread (m : Machine) (t : Nat) (a : Thread) :
    (m.setThread t a).active_thread = m.active_thread := rfl

@[simp] theorem getMutex?_setThread (m : Machine) (t : Nat) (a : Thread) (id : Nat) :
    (m.setThread t a).getMutex? id = m.getMutex? id := rfl

@[simp] theorem getCondvar?_setThread (m : Machine) (t : Nat) (a : Thread) (c : Nat) :
    (m.setThread t a).getCondvar? c = m.getCondvar? c := rfl

@[simp] theorem setThread_ret_slots (m : Machine) (t : Nat) (a : Thread) :
    (m.setThread t a).ret_slots = m.ret_slots := rfl

@[simp] theorem setThread_timeout_callbacks (m : Machine) (t : Nat) (a : Thread) :
    (m.setThread t a).timeout_callbacks = m.timeout_callbacks := rfl

@[simp] theorem setThread_time_anchor (m : Machine) (t : Nat) (a : Thread) :
    (m.setThread t a).time_anchor = m.time_anchor := rfl

@[simp] theorem setThread_time_anchor_timestamp (m : Machine) (t : Nat) (a : Thread) :
    (m.setThread t a).time_anchor_timestamp = m.time_anchor_timestamp := rfl

@[simp] theorem setCondvar_active_thread (m : Machine) (c : Nat) (a : Condvar) :
    (m.setCondvar c a).active_thread = m.active_thread := rfl

@[simp] theorem getMutex?_setCondvar (m : Machine) (c : Nat) (a : Condvar) (id : Nat) :
    (m.setCondvar c a).getMutex? id = m.getMutex? id := rfl

@[simp] theorem getThread?_setCondvar (m : Machine) (c : Nat) (a : Condvar) (t : Nat) :
    (m.setCondvar c a).getThread? t = m.getThread? t := rfl

@[simp] theorem setCondvar_ret_slots (m : Machine) (c : Nat) (a : Condvar) :
    (m.setCondvar c a).ret_slots = m.ret_slots := rfl

@[simp] theorem setCondvar_timeout_callbacks (m : Machine) (c : Nat) (a : Condvar) :
    (m.setCondvar c a).timeout_callbacks = m.timeout_callbacks := rfl

@[simp] theorem setCondvar_time_anchor (m : Machine) (c : Nat) (a : Condvar) :
    (m.setCondvar c a).time_anchor = m.time_anchor := rfl

@[simp] theorem setCondvar_time_anchor_timestamp (m : Machine) (c : Nat) (a : Condvar) :
    (m.setCondvar c a).time_anchor_timestamp = m.time_anchor_timestamp := rfl

@[simp] theorem write_ret_slot_active_thread (m : Machine) (d : Nat) (v : Int) :
    (write_ret_slot m d v).active_thread = m.active_thread := rfl

@[simp] theorem getMutex?_write_ret_slot (m : Machine) (d : Nat) (v : Int) (id : Nat) :
    (write_ret_slot m d v).getMutex? id = m.getMutex? id := rfl

@[simp] theorem getCondvar?_write_ret_slot (m : Machine) (d : Nat) (v : Int) (c : Nat) :
    (write_ret_slot m d v).getCondvar? c = m.getCondvar? c := rfl

@[simp] theorem getThread?_write_ret_slot (m : Machine) (d : Nat) (v : Int) (t : Nat) :
    (write_ret_slot m d v).getThread? t = m.getThread? t := rfl

@[simp] theorem write_ret_slot_timeout_callbacks (m : Machine) (d : Nat) (v : Int) :
    (write_ret_slot m d v).timeout_callbacks = m.timeout_callbacks := rfl

@[simp] theorem write_ret_slot_time_anchor (m : Machine) (d : Nat) (v : Int) :
    (write_ret_slot m d v).time_anchor = m.time_anchor := rfl

@[simp] theorem write_ret_slot_time_anchor_timestamp (m : Machine) (d : Nat) (v : Int) :
    (write_ret_slot m d v).time_anchor_timestamp = m.time_anchor_timestamp := rfl

@[simp] theorem write_ret_slot_ret_slots (m : Machine) (d : Nat) (v : Int) :
    (write_ret_slot m d v).ret_slots = m.ret_slots.set d v := rfl

theorem lookup_append_of_none {β : Type} (l1 l2 : List (Nat × β)) (a : Nat)
    (h : l1.lookup a = none) : (l1 ++ l2).lookup a = l2.lookup a := by
  induction l1 with
  | nil => rfl
  | cons p rest ih =>
    cases p with
    | mk x b =>
      simp only [List.cons_append, List.lookup] at h ⊢
      cases hpa : (a == x) with
      | true => simp [hpa] at h
      | false => simp only [hpa] at h ⊢; exact ih h

/-! ## The claims -/

/-- Claim C1: the spec says that when `pthread_rwlock_unlock` removes the
caller from the readers and readers remain, the writer field and both queues
are unchanged, and that when no readers remain and a writer is queued, that
writer is dequeued, set as writer and unblocked.  The source does the
opposite: its reader branch tests `rwlock_is_locked` (readers remain) where
its own comment ("No more readers owning the lock") requires the negation.
At `machineA` (readers 1 and 2, queued writer 3, active thread 1) the unlock
hands the lock to writer 3 while reader 2 still holds it; at `machineB`
(single reader 1, queued writer 3) the unlock wakes nobody and leaves
writer 3 blocked on an unlocked rwlock. -/
theorem C1_rwlock_unlock_reader_path_bug :
    (pthread_rwlock_unlock ⟨1⟩ machineA).map
        (fun r => (r.1, r.2.2.getRwLock? 1, (r.2.2.getThread? 3).map (fun t => t.state))) =
      .ok (0, some ⟨some 3, [2], [], []⟩, some .enabled) ∧
    (pthread_rwlock_unlock ⟨1⟩ machineB).map
        (fun r => (r.1, r.2.2.getRwLock? 1, (r.2.2.getThread? 3).map (fun t => t.state))) =
      .ok (0, some ⟨none, [], [3], []⟩, some .blockedOnSync) := by decide

/-- Claim C2: the spec's invariant I3 (writer and readers mutually exclusive)
is violated in a state reachable from the initial machine by thread creation,
activation and the rwlock shims alone: after threads 1 and 2 rdlock, thread 3
wrlock (blocks), and thread 1 unlock, the rwlock has `writer = some 3` while
the reader multiset `[2]` is non-empty — a consequence of the inverted
`rwlock_is_locked` test described at C1. -/
theorem C2_rwlock_mutual_exclusion_violated :
    C2_run.map (fun m => m.getRwLock? 1) = .ok (some ⟨some 3, [2], [], []⟩) := by decide

/-- Claim C3: the spec says `schedule` compares Monotonic callbacks against
`Instant::now()` and RealTime callbacks against `SystemTime::now()` when
sleeping until the nearest callback.  The source instead applies
`checked_duration_since(Instant::now())` to the tagged `call_time` uniformly
(and its per-variant scan is non-compiling residue).  At `mC3` the only
callback is `RealTime 500` with `SystemTime::now() = 1000`: per the claim the
deadline has passed and no sleep happens (second conjunct), yet the code
sleeps 400 ns, the distance from `Instant::now() = 100` (first conjunct).
With no callback registered the Deadlock machine stop is raised (third
conjunct). -/
theorem C3_schedule_timeout_branch_bug :
    schedule 100 1000 mC3 = .ok (.executeTimeoutCallback, some 400, mC3) ∧
    checked_duration_since (Time.realTime 500).instant 1000 = none ∧
    schedule 100 1000 { mC3 with timeout_callbacks := [] } = .error .deadlock := by decide

/-- Claim C6 counterexample: `pthread_cond_timedwait` on a condvar whose
stored clock is `CLOCK_REALTIME` registers a callback whose call time is
`Time.monotonic` (the shim converts the wall-clock `abstime` into an
`Instant` through the machine's time anchors), not the `RealTime` variant the
claim requires. -/
theorem C6_realtime_clock_registers_monotonic_time :
    condObjR.clock_id = some CLOCK_REALTIME ∧
    (pthread_cond_timedwait condObjR mutexObjN ⟨1, 500⟩ 0 mC6).map
        (fun r => (r.2.2.timeout_callbacks.lookup 0).map (fun i => i.call_time)) =
      .ok (some (.monotonic 1000001300)) := by decide

/-- Claim C7: the spec says `get_next_callback_wait_time` returns the
smallest wait time over all registered callbacks (`None` iff the table is
empty).  The source returns the wait time of the first entry its value
iterator yields, with no minimization — contradicting its own doc comment
("how long we need to wait until the next callback").  At `mC7` the first
entry waits 1000 while the minimum over the table is 50.  The `None`-iff-empty
half does hold (third conjunct). -/
theorem C7_next_wait_time_not_minimized :
    get_next_callback_wait_time 0 0 mC7 = some 1000 ∧
    (mC7.timeout_callbacks.map (fun p => p.2.get_wait_time 0 0)).min? = some 50 ∧
    get_next_callback_wait_time 0 0 { mC7 with timeout_callbacks := [] } = none := by decide

/-- Claim C4: `pthread_mutex_lock` on a mutex already locked and owned by the
calling thread: kind `PTHREAD_MUTEX_NORMAL` terminates with the Deadlock
machine stop, `PTHREAD_MUTEX_ERRORCHECK` returns `EDEADLK`,
`PTHREAD_MUTEX_RECURSIVE` increments the lock count and returns 0, and any
other kind raises undefined behavior. -/
theorem C4_mutex_lock_owner_reacquire (m : Machine) (obj : MutexObj) (k : Int) (mx : Mutex)
    (hk : obj.kind = some k) (hid : obj.id ≠ 0)
    (hmx : m.getMutex? obj.id = some mx) (hown : mx.owner = some m.active_thread) :
    (k = PTHREAD_MUTEX_NORMAL → pthread_mutex_lock obj m = .error .deadlock) ∧
    (k = PTHREAD_MUTEX_ERRORCHECK → pthread_mutex_lock obj m = .ok (EDEADLK, obj, m)) ∧
    (k = PTHREAD_MUTEX_RECURSIVE →
      pthread_mutex_lock obj m =
        .ok (0, obj, m.setMutex obj.id { mx with lock_count := mx.lock_count + 1 })) ∧
    (k ≠ PTHREAD_MUTEX_NORMAL → k ≠ PTHREAD_MUTEX_ERRORCHECK → k ≠ PTHREAD_MUTEX_RECURSIVE →
      pthread_mutex_lock obj m = .error (.undefinedBehavior
        "called pthread_mutex_lock on an unsupported type of mutex")) := by
  have hred : pthread_mutex_lock obj m =
      (if k = PTHREAD_MUTEX_NORMAL then .error .deadlock
       else if k = PTHREAD_MUTEX_ERRORCHECK then .ok (EDEADLK, obj, m)
       else if k = PTHREAD_MUTEX_RECURSIVE then
         .ok (0, obj, m.setMutex obj.id { mx with lock_count := mx.lock_count + 1 })
       else .error (.undefinedBehavior
         "called pthread_mutex_lock on an unsupported type of mutex")) := by
    unfold pthread_mutex_lock not_undef mutex_get_or_create_id mutex_is_locked mutex_get_owner
      mutex_lock
    rw [hk, if_neg hid]
    simp [hmx, hown]
  refine ⟨fun h => ?_, fun h => ?_, fun h => ?_, fun h1 h2 h3 => ?_⟩
  · rw [hred]; subst h; norm_num
  · rw [hred]; subst h
    norm_num [PTHREAD_MUTEX_NORMAL, PTHREAD_MUTEX_ERRORCHECK]
  · rw [hred]; subst h
    norm_num [PTHREAD_MUTEX_NORMAL, PTHREAD_MUTEX_ERRORCHECK, PTHREAD_MUTEX_RECURSIVE]
  · rw [hred, if_neg h1, if_neg h2, if_neg h3]

/-- Witness for C4 at a concrete input: the main thread of `mC6` owns mutex 1
and re-locks it with kind `PTHREAD_MUTEX_NORMAL`, producing the Deadlock
machine stop. -/
theorem C4_mutex_lock_owner_reacquire_witness :
    pthread_mutex_lock mutexObjN mC6 = .error .deadlock :=
  (C4_mutex_lock_owner_reacquire mC6 mutexObjN PTHREAD_MUTEX_NORMAL ⟨some 0, 1, []⟩
    rfl (by decide) rfl rfl).1 rfl

/-- Claim C5: `pthread_mutex_unlock`: not the owner of a locked mutex → UB;
owner with count ≥ 2 → decrement, return 0; owner with count 1 and a queued
waiter → the head waiter is dequeued, made the owner and unblocked within the
same call, return 0; owner with count 1 and no waiter → fully unlocked,
return 0; already unlocked with kind NORMAL → UB, with ERRORCHECK or
RECURSIVE → EPERM. -/
theorem C5_mutex_unlock_cases (m : Machine) (obj : MutexObj) (k : Int) (mx : Mutex)
    (hk : obj.kind = some k) (hid : obj.id ≠ 0) (hmx : m.getMutex? obj.id = some mx) :
    (∀ w, mx.owner = some w → w ≠ m.active_thread →
      pthread_mutex_unlock obj m = .error (.undefinedBehavior
        "called pthread_mutex_unlock on a mutex owned by another thread")) ∧
    (mx.owner = some m.active_thread → 2 ≤ mx.lock_count →
      pthread_mutex_unlock obj m =
        .ok (0, obj, m.setMutex obj.id { mx with lock_count := mx.lock_count - 1 })) ∧
    (∀ w ws thw, mx.owner = some m.active_thread → mx.lock_count = 1 → mx.queue = w :: ws →
      m.getThread? w = some thw → thw.state = .blockedOnSync →
      pthread_mutex_unlock obj m =
        .ok (0, obj, (m.setMutex obj.id
            { mx with owner := some w, lock_count := 1, queue := ws }).setThread w
          { thw with state := .enabled })) ∧
    (mx.owner = some m.active_thread → mx.lock_count = 1 → mx.queue = [] →
      pthread_mutex_unlock obj m =
        .ok (0, obj, m.setMutex obj.id { mx with owner := none, lock_count := 0 })) ∧
    (mx.owner = none → k = PTHREAD_MUTEX_NORMAL →
      pthread_mutex_unlock obj m = .error (.undefinedBehavior
        "unlocked a PTHREAD_MUTEX_NORMAL mutex that was not locked")) ∧
    (mx.owner = none → k = PTHREAD_MUTEX_ERRORCHECK →
      pthread_mutex_unlock obj m = .ok (EPERM, obj, m)) ∧
    (mx.owner = none → k = PTHREAD_MUTEX_RECURSIVE →
      pthread_mutex_unlock obj m = .ok (EPERM, obj, m)) := by
  obtain ⟨mo, mc, mq⟩ := mx
  refine ⟨?_, ?_, ?_, ?_, ?_, ?_, ?_⟩
  · intro w hw hne
    simp only at hw
    subst hw
    unfold pthread_mutex_unlock not_undef mutex_get_or_create_id mutex_unlock
    rw [hk, if_neg hid]
    simp [hmx, hne]
  · intro hown hcnt
    simp only at hown hcnt
    subst hown
    have hne0 : ¬(mc - 1 = 0) := by omega
    unfold pthread_mutex_unlock not_undef mutex_get_or_create_id mutex_unlock
    rw [hk, if_neg hid]
    simp [hmx, hne0]
  · intro w ws thw hown hcnt hq hthw hb
    simp only at hown hcnt hq
    subst hown
    subst hcnt
    subst hq
    have h1 := getMutex?_setMutex m obj.id ⟨some m.active_thread, 1, w :: ws⟩
      ⟨none, 0, w :: ws⟩ hmx
    have h2 := getMutex?_setMutex m obj.id ⟨some m.active_thread, 1, w :: ws⟩
      ⟨none, 0, ws⟩ hmx
    unfold pthread_mutex_unlock not_undef mutex_get_or_create_id mutex_unlock mutex_dequeue
      mutex_lock unblock_thread
    rw [hk, if_neg hid]
    simp [hmx, h1, h2, setMutex_setMutex, hthw, hb]
  · intro hown hcnt hq
    simp only at hown hcnt hq
    subst hown
    subst hcnt
    subst hq
    have h1 := getMutex?_setMutex m obj.id ⟨some m.active_thread, 1, []⟩ ⟨none, 0, []⟩ hmx
    unfold pthread_mutex_unlock not_undef mutex_get_or_create_id mutex_unlock mutex_dequeue
    rw [hk, if_neg hid]
    simp [hmx, h1]
  · intro hnone h
    simp only at hnone
    subst hnone
    unfold pthread_mutex_unlock not_undef mutex_get_or_create_id mutex_unlock
    rw [hk, if_neg hid]
    simp [hmx]
    subst h
    norm_num [PTHREAD_MUTEX_NORMAL]
  · intro hnone h
    simp only at hnone
    subst hnone
    unfold pthread_mutex_unlock not_undef mutex_get_or_create_id mutex_unlock
    rw [hk, if_neg hid]
    simp [hmx]
    subst h
    norm_num [PTHREAD_MUTEX_NORMAL, PTHREAD_MUTEX_ERRORCHECK]
  · intro hnone h
    simp only at hnone
    subst hnone
    unfold pthread_mutex_unlock not_undef mutex_get_or_create_id mutex_unlock
    rw [hk, if_neg hid]
    simp [hmx]
    subst h
    norm_num [PTHREAD_MUTEX_NORMAL, PTHREAD_MUTEX_ERRORCHECK, PTHREAD_MUTEX_RECURSIVE]

/-- Witness for C5 at a concrete input: the main thread of `mC5` owns mutex 1
with count 1 and thread 1 queued; unlocking hands the mutex to thread 1 and
unblocks it in the same call, returning 0. -/
theorem C5_mutex_unlock_cases_witness :
    pthread_mutex_unlock mutexObjN mC5 =
      .ok (0, mutexObjN, (mC5.setMutex 1 ⟨some 1, 1, []⟩).setThread 1
        { blockedThread with state := .enabled }) :=
  (C5_mutex_unlock_cases mC5 mutexObjN PTHREAD_MUTEX_NORMAL ⟨some 0, 1, [1]⟩
    rfl (by decide) rfl).2.2.1 1 [] blockedThread rfl rfl rfl rfl rfl

/-- Claim C8: `pthread_cond_signal` on a condvar (with an assigned id) whose
waiter queue is empty returns 0 and leaves the machine — thread states,
mutexes, rwlocks, condvars, timeout callbacks — and the guest object entirely
unchanged. -/
theorem C8_cond_signal_no_waiters_noop (obj : CondObj) (m : Machine) (cv : Condvar)
    (hid : obj.id ≠ 0) (hcv : m.getCondvar? obj.id = some cv) (hw : cv.waiters = []) :
    pthread_cond_signal obj m = .ok (0, obj, m) := by
  unfold pthread_cond_signal cond_get_or_create_id condvar_signal
  rw [if_neg hid]
  simp [hcv, hw]

/-- Witness for C8 at a concrete input: condvar 1 of `mC6` has no waiters. -/
theorem C8_cond_signal_no_waiters_noop_witness :
    pthread_cond_signal condObjR mC6 = .ok (0, condObjR, mC6) :=
  C8_cond_signal_no_waiters_noop condObjR mC6 ⟨[]⟩ (by decide) rfl rfl

/-- The thread-picking scan leaves the active thread unchanged when the yield
flag is set and no other thread is enabled. -/
theorem find_new_active_from_no_other (active : Nat) :
    ∀ (ts : List Thread) (i : Nat),
      (∀ j th, ts.get? j = some th → th.state = .enabled → i + j = active) →
      find_new_active_from true active i ts = active := by
  intro ts
  induction ts with
  | nil => intro i _; rfl
  | cons th rest ih =>
    intro i h
    unfold find_new_active_from
    have hcond : ¬(th.state = .enabled ∧ (true = false ∨ i ≠ active)) := by
      rintro ⟨hen, h1 | h2⟩
      · exact absurd h1 (by simp)
      · exact h2 (by have := h 0 th rfl hen; omega)
    rw [if_neg hcond]
    exact ih (i + 1) (fun j t hj ht => by
      have := h (j + 1) t (by simpa using hj) ht; omega)

/-- Claim C9: when the active thread is Enabled with a non-empty stack, the
main thread is not Terminated, the yield flag is set and no other thread is
Enabled, `schedule` returns `ExecuteStep` with the active thread unchanged
and the yield flag cleared (and performs no sleep) — the yield falls through
the scan back to the same thread instead of reaching the deadlock branch. -/
theorem C9_yield_no_other_enabled_continues (monoNow realNow : Nat) (m : Machine)
    (th mt : Thread)
    (hth : m.getThread? m.active_thread = some th)
    (hen : th.state = .enabled) (hstack : th.stack ≠ [])
    (hmt : m.getThread? 0 = some mt) (hmain : mt.state ≠ .terminated)
    (hyield : m.yield_active_thread = true)
    (honly : ∀ j t, m.threads.get? j = some t → t.state = .enabled → j = m.active_thread) :
    schedule monoNow realNow m =
      .ok (.executeStep, none, { m with yield_active_thread := false }) := by
  have hfind : find_new_active m = m.active_thread := by
    unfold find_new_active
    rw [hyield]
    exact find_new_active_from_no_other _ m.threads 0 (fun j t hj ht => by
      have := honly j t hj ht; omega)
  unfold schedule
  rw [hth, hmt]
  simp only [hen, hstack, hyield, hfind]
  simp [hmain, Machine.getThread?] at *
  rw [hth]
  simp [hen]

/-- Witness for C9 at a concrete input: the single (main) thread of `mC9w`
has just yielded; `schedule` continues it and clears the flag. -/
theorem C9_yield_no_other_enabled_continues_witness :
    schedule 0 0 mC9w = .ok (.executeStep, none, { mC9w with yield_active_thread := false }) :=
  C9_yield_no_other_enabled_continues 0 0 mC9w mainThread mainThread rfl rfl (by decide)
    rfl (by decide) rfl
    (fun j t hj _ => by
      cases j with
      | zero => rfl
      | succ n => simp [mC9w, Machine.default] at hj)

/-- Claim C6, amended: for every successful call to `pthread_cond_timedwait`
(mutex and condvar ids assigned, mutex held once by the caller with no queued
waiter, caller enabled, no callback pending for it, and the call-time
conversion succeeding with value `v`): after releasing the mutex and
enqueueing the caller on the condvar, a timeout callback is registered whose
call time is ALWAYS the `Monotonic` variant — the condvar's stored clock only
selects how `abstime` is converted into that single monotonic instant
(`cond_timeout_time`: for `CLOCK_REALTIME` via the machine's time anchors,
for `CLOCK_MONOTONIC` by adding to the anchor) — 0 is written to the return
slot immediately, and when the callback fires (mutex free, thread blocked) it
reacquires the mutex for the thread, removes the thread from the condvar's
waiter list, and overwrites the return slot with `ETIMEDOUT`. -/
theorem C6_timedwait_amended (m : Machine) (condObj : CondObj) (mutexObj : MutexObj)
    (ts : TimespecObj) (dest : Nat) (cv : Condvar) (mx : Mutex) (th : Thread)
    (clk : Int) (v : Nat)
    (hcid : condObj.id ≠ 0) (hcv : m.getCondvar? condObj.id = some cv)
    (hmid : mutexObj.id ≠ 0) (hmx : m.getMutex? mutexObj.id = some mx)
    (hown : mx.owner = some m.active_thread) (hcnt : mx.lock_count = 1) (hq : mx.queue = [])
    (hth : m.getThread? m.active_thread = some th) (hen : th.state = .enabled)
    (hclk : condObj.clock_id = some clk)
    (hnc : m.timeout_callbacks.lookup m.active_thread = none)
    (htt : cond_timeout_time m.time_anchor m.time_anchor_timestamp clk
      (cond_abstime_duration ts) = .ok v) :
    (∃ m',
      pthread_cond_timedwait condObj mutexObj ts dest m = .ok (condObj, mutexObj, m') ∧
      m'.timeout_callbacks.lookup m.active_thread =
        some ⟨.monotonic v, .condTimedwait m.active_thread mutexObj.id condObj.id dest⟩ ∧
      m'.ret_slots = m.ret_slots.set dest 0 ∧
      m'.getMutex? mutexObj.id = some { mx with owner := none, lock_count := 0 } ∧
      m'.getCondvar? condObj.id = some ⟨cv.waiters ++ [(m.active_thread, mutexObj.id)]⟩ ∧
      m'.getThread? m.active_thread = some { th with state := .blockedOnSync }) ∧
    (∀ (s : Machine) (t : Nat) (mx2 : Mutex) (th2 : Thread),
      s.getMutex? mutexObj.id = some mx2 → mx2.owner = none →
      s.getThread? t = some th2 → th2.state = .blockedOnSync →
      ∃ s', run_callback (.condTimedwait t mutexObj.id condObj.id dest) s = .ok s' ∧
        s'.getMutex? mutexObj.id =
          some { mx2 with owner := some t, lock_count := mx2.lock_count + 1 } ∧
        s'.getCondvar? condObj.id =
          (s.getCondvar? condObj.id).map (fun c => ⟨c.waiters.filter (fun w => w.1 ≠ t)⟩) ∧
        s'.ret_slots = s.ret_slots.set dest ETIMEDOUT) := by
  constructor
  · obtain ⟨mo, mc, mq⟩ := mx
    simp only at hown hcnt hq
    subst hown
    subst hcnt
    subst hq
    have h1 := getMutex?_setMutex m mutexObj.id ⟨some m.active_thread, 1, []⟩
      ⟨none, 0, []⟩ hmx
    have ht2 : (m.setMutex mutexObj.id ⟨none, 0, []⟩).getThread? m.active_thread = some th := hth
    have hc2 : ((m.setMutex mutexObj.id ⟨none, 0, []⟩).setThread m.active_thread
        { th with state := .blockedOnSync }).getCondvar? condObj.id = some cv := hcv
    have hc3 := getCondvar?_setCondvar _ condObj.id cv
      ⟨cv.waiters ++ [(m.active_thread, mutexObj.id)]⟩ hc2
    have ht3 := getThread?_setThread (m.setMutex mutexObj.id ⟨none, 0, []⟩) m.active_thread th
      { th with state := .blockedOnSync } ht2
    have hres : pthread_cond_timedwait condObj mutexObj ts dest m = .ok (condObj, mutexObj,
        { write_ret_slot (((m.setMutex mutexObj.id ⟨none, 0, []⟩).setThread m.active_thread
            { th with state := .blockedOnSync }).setCondvar condObj.id
            ⟨cv.waiters ++ [(m.active_thread, mutexObj.id)]⟩) dest 0 with
          timeout_callbacks := m.timeout_callbacks ++
            [(m.active_thread,
              ⟨.monotonic v, .condTimedwait m.active_thread mutexObj.id condObj.id dest⟩)] }) := by
      unfold pthread_cond_timedwait cond_get_or_create_id mutex_get_or_create_id
        release_cond_mutex mutex_unlock mutex_dequeue condvar_wait not_undef block_thread
        register_timeout_callback
      simp only [if_neg hcid, if_neg hmid]
      simp [hmx, hcv, hclk, htt, ht2, hen, hc2, h1, hnc]
    refine ⟨_, hres, ?_, rfl, h1, hc3, ht3⟩
    show List.lookup m.active_thread (m.timeout_callbacks ++
      [(m.active_thread,
        ⟨.monotonic v, .condTimedwait m.active_thread mutexObj.id condObj.id dest⟩)]) = _
    rw [lookup_append_of_none _ _ _ hnc]
    simp [List.lookup]
  · intro s t mx2 th2 hs hmo hst hsb
    have hs2 := getMutex?_setMutex s mutexObj.id mx2
      { mx2 with owner := some t, lock_count := mx2.lock_count + 1 } hs
    have hst2 : ((s.setMutex mutexObj.id
        { mx2 with owner := some t, lock_count := mx2.lock_count + 1 })).getThread? t
        = some th2 := hst
    unfold run_callback reacquire_cond_mutex mutex_is_locked mutex_lock unblock_thread
      condvar_remove_waiter
    simp only [hs, hmo, Option.isSome_none, Bool.false_eq_true, if_false, ite_false,
      hst2, hsb, if_pos, if_true, ite_true]
    cases hc : s.getCondvar? condObj.id with
    | none =>
      have hcnone : (((s.setMutex mutexObj.id
          { mx2 with owner := some t, lock_count := mx2.lock_count + 1 }).setThread t
          { th2 with state := .enabled })).getCondvar? condObj.id = none := hc
      simp only [hcnone]
      refine ⟨_, rfl, ?_, ?_, ?_⟩
      · simp [hs2]
      · simp [hc]
      · simp
    | some c =>
      have hcsome : (((s.setMutex mutexObj.id
          { mx2 with owner := some t, lock_count := mx2.lock_count + 1 }).setThread t
          { th2 with state := .enabled })).getCondvar? condObj.id = some c := hc
      have hc4 := getCondvar?_setCondvar _ condObj.id c
        ⟨c.waiters.filter (fun w => !decide (w.1 = t))⟩ hcsome
      simp only [hcsome]
      refine ⟨_, rfl, ?_, ?_, ?_⟩
      · simp [hs2]
      · simp [hc, hc4]
      · simp

/-- Witness for C6 at a concrete input: on `mC6` with the `CLOCK_REALTIME`
condvar, the registered call time is `Time.monotonic 1000001300`
(anchor 1000 + (1 s 500 ns − wall anchor 200)). -/
theorem C6_timedwait_amended_witness :
    (∃ m',
      pthread_cond_timedwait condObjR mutexObjN ⟨1, 500⟩ 0 mC6 = .ok (condObjR, mutexObjN, m') ∧
      m'.timeout_callbacks.lookup 0 =
        some ⟨.monotonic 1000001300, .condTimedwait 0 1 1 0⟩ ∧
      m'.ret_slots = mC6.ret_slots.set 0 0 ∧
      m'.getMutex? 1 = some ⟨none, 0, []⟩ ∧
      m'.getCondvar? 1 = some ⟨[(0, 1)]⟩ ∧
      m'.getThread? 0 = some { mainThread with state := .blockedOnSync }) ∧
    (∀ (s : Machine) (t : Nat) (mx2 : Mutex) (th2 : Thread),
      s.getMutex? 1 = some mx2 → mx2.owner = none →
      s.getThread? t = some th2 → th2.state = .blockedOnSync →
      ∃ s', run_callback (.condTimedwait t 1 1 0) s = .ok s' ∧
        s'.getMutex? 1 = some { mx2 with owner := some t, lock_count := mx2.lock_count + 1 } ∧
        s'.getCondvar? 1 =
          (s.getCondvar? 1).map (fun c => ⟨c.waiters.filter (fun w => w.1 ≠ t)⟩) ∧
        s'.ret_slots = s.ret_slots.set 0 ETIMEDOUT) :=
  C6_timedwait_amended mC6 condObjR mutexObjN ⟨1, 500⟩ 0 ⟨[]⟩ ⟨some 0, 1, []⟩ mainThread
    CLOCK_REALTIME 1000001300 (by decide) rfl (by decide) rfl rfl rfl rfl rfl rfl rfl rfl
    (by decide)

/-- Claim C10: `nanosleep` raises undefined behavior whenever the decoded
`timespec` has a nanoseconds field above 999 999 999 — the error aborts the
shim before the thread is blocked and before any callback is registered
(the `Except.error` result carries no successor state) — while
`pthread_cond_timedwait` performs no such bound check: at a nanoseconds field
of 1 500 000 000 it still succeeds. -/
theorem C10_nanosleep_nsec_bound_check :
    (∀ (monoNow : Nat) (req : TimespecObj) (m : Machine), 999999999 < req.tv_nsec →
      nanosleep monoNow req m = .error (.undefinedBehavior
        ("the provided value for nanoseconds is " ++ toString req.tv_nsec ++
          ", but should be less than a billion"))) ∧
    (pthread_cond_timedwait ⟨1, some CLOCK_MONOTONIC⟩ mutexObjN ⟨1, 1500000000⟩ 0 mC6).isOk
      = true := by
  constructor
  · intro monoNow req m h
    unfold nanosleep posix_timespec_to_duration
    rw [if_pos h]
  · decide

/-- Witness for C10 at a concrete input: `nanosleep` of 1 s plus
1 500 000 000 ns is undefined behavior. -/
theorem C10_nanosleep_nsec_bound_check_witness :
    nanosleep 17 ⟨1, 1500000000⟩ mC6 = .error (.undefinedBehavior
      ("the provided value for nanoseconds is " ++ toString (1500000000 : Nat) ++
        ", but should be less than a billion")) :=
  C10_nanosleep_nsec_bound_check.1 17 ⟨1, 1500000000⟩ mC6 (by norm_num)

end Miri
